import Mathlib

/- Shallow embedding of the session-resilience core of the
   InteractiveAvatar component revisions.

   Source revisions:
   - src/components/InteractiveAvatar.tsx ("tsx" revision): reconnectRef with
     attempts and one backoff timer; hardResetWithBackoff guarded only by the
     pending timer; STREAM_DISCONNECTED handler calls hardResetWithBackoff
     directly; fetchAccessToken without a status check.
   - src/unnamed/part_000 ("part000" revision): fetchAccessToken with a status
     check; hardReset without backoff; 10 s freeze watchdog with SOFT_LIMIT 3.
   - src/unnamed/part_001 ("part001" revision): same coordinator as tsx plus a
     10-minute silent recycle that passes activityIdleTimeout 3600.
   - src/unnamed/part_002, first document ("part002doc1" revision): same
     coordinator as tsx, silent recycle passing activityIdleTimeout 3200,
     fetchAccessToken with a response.ok check.
   - src/unnamed/part_002, third document ("part002" revision, lines 411-793):
     grace windows, cancelPendingHardReset, single-flight flags startInFlight /
     stopInFlight / resetInFlight / voiceStartInFlight.
   - src/unnamed/part_002, fourth document ("part002doc4" revision, lines
     794-1213): console.error monitoring with WebSocket-error thresholds and
     the freeze watchdog.

   Timer-driven asynchronous handlers are embedded as explicit event-step
   functions on supervisor-state records; each step is the synchronous effect
   of one handler or timer callback of the single-threaded event loop. -/

/-- Avatar quality tiers appearing in the DEFAULT_CONFIG records. -/
inductive AvatarQualityM
  | low
  | medium
  | high
  deriving DecidableEq

/-- Start configuration record: the fields of StartAvatarRequest that the
resilience core reads or writes. All remaining fields are opaque pass-through
values and are omitted. activityIdleTimeout is optional, as in the source,
where the tsx DEFAULT_CONFIG leaves it unset. -/
structure StartAvatarRequestM where
  quality : AvatarQualityM
  language : String
  activityIdleTimeout : Option Nat
  deriving DecidableEq

/-- DEFAULT_CONFIG of the tsx, part001, part002doc1 and part002 revisions:
quality Low, language "en", no activityIdleTimeout field. -/
def DEFAULT_CONFIG : StartAvatarRequestM :=
  { quality := AvatarQualityM.low, language := "en", activityIdleTimeout := none }

/-- DEFAULT_CONFIG of the part000 and part002doc4 revisions: quality Medium
and activityIdleTimeout 3600 present in the caller-held record itself. -/
def DEFAULT_CONFIG_part000 : StartAvatarRequestM :=
  { quality := AvatarQualityM.medium, language := "en", activityIdleTimeout := some 3600 }

/-- Configuration built by startSessionV2 and by hardResetWithBackoff in the
tsx, part001, part002doc1 and part002 revisions: the caller configuration
spread with activityIdleTimeout forced to 3600. -/
def extendedConfig (cfg : StartAvatarRequestM) : StartAvatarRequestM :=
  { cfg with activityIdleTimeout := some 3600 }

/-- Configuration passed to startAvatar by the silent periodic recycle of the
part001 revision: the caller configuration spread with activityIdleTimeout
3600. -/
def recycleConfigPart001 (cfg : StartAvatarRequestM) : StartAvatarRequestM :=
  { cfg with activityIdleTimeout := some 3600 }

/-- Configuration passed to startAvatar by the silent periodic recycle of the
part002doc1 revision (src/unnamed/part_002 lines 225-228): the caller
configuration spread with activityIdleTimeout 3200. -/
def recycleConfigPart002 (cfg : StartAvatarRequestM) : StartAvatarRequestM :=
  { cfg with activityIdleTimeout := some 3200 }

/-- Configuration passed to startAvatar by hardReset of the part000 revision
(src/unnamed/part_000 lines 111-125): startAvatar(configRef.current), the
caller configuration unchanged, with no idle-timeout clamp. -/
def hardResetConfigPart000 (cfg : StartAvatarRequestM) : StartAvatarRequestM :=
  cfg

/-- Exclusive upper bound of Math.floor(Math.random() * 300) in the tsx and
part001 hardResetWithBackoff. -/
def JITTER_BOUND_TSX : Nat := 300

/-- Exclusive upper bound of Math.floor(Math.random() * 500) in the part002
hardResetWithBackoff. -/
def JITTER_BOUND_PART002 : Nat := 500

/-- Backoff delay of hardResetWithBackoff in the tsx and part001 revisions:
Math.min(15000, 1000 * Math.pow(2, attempt)) plus the random jitter, which is
passed explicitly here and ranges over [0, 300). -/
def hardResetDelayTsx (attempt jitter : Nat) : Nat :=
  min 15000 (1000 * 2 ^ attempt) + jitter

/-- Backoff delay of hardResetWithBackoff in the part002 revision
(src/unnamed/part_002 lines 568-570): ceiling 20000 and jitter in [0, 500). -/
def hardResetDelayPart002 (attempt jitter : Nat) : Nat :=
  min 20000 (1000 * 2 ^ attempt) + jitter

/-- Recovery-coordinator state of the tsx revision: reconnectRef holds the
attempt counter and the backoff timer slot; executing marks the window in
which the setTimeout callback (the reset body) is running, after the timer
fired and before the body returned. -/
structure StateA where
  attempts : Nat
  timerPending : Bool
  executing : Bool
  deriving DecidableEq

/-- Synchronous prefix of hardResetWithBackoff in the tsx revision
(src/components/InteractiveAvatar.tsx lines 92-99): a no-op when a backoff
timer is already pending, otherwise it schedules the timer and increments the
attempt counter. The guard does not consult the executing window. -/
def requestA (s : StateA) : StateA :=
  if s.timerPending = true then s
  else { s with timerPending := true, attempts := s.attempts + 1 }

/-- Events of the tsx coordinator: a hard-reset request from any health
signal, the backoff timer firing, the reset body finishing (successfully or
by throwing), and the STREAM_DISCONNECTED handler. -/
inductive EventA
  | request
  | timerFire
  | completeOk
  | completeFail
  | disconnect
  deriving DecidableEq

/-- One event-loop step of the tsx coordinator. timerFire clears the timer
slot and enters the reset body. completeOk zeroes the attempt counter on
success. completeFail is the catch block, which calls hardResetWithBackoff
again; because the timer slot was already cleared, this schedules the retry.
disconnect is the STREAM_DISCONNECTED handler, which soft-restarts the tracks
(no effect on this state) and then calls hardResetWithBackoff. -/
def stepA (s : StateA) : EventA → StateA
  | EventA.request => requestA s
  | EventA.timerFire =>
      if s.timerPending = true then { s with timerPending := false, executing := true } else s
  | EventA.completeOk =>
      if s.executing = true then { s with executing := false, attempts := 0 } else s
  | EventA.completeFail =>
      if s.executing = true then requestA { s with executing := false } else s
  | EventA.disconnect => requestA s

/-- Initial reconnectRef value of the tsx revision. -/
def initA : StateA := { attempts := 0, timerPending := false, executing := false }

/-- Event-loop execution of the tsx coordinator over a list of events. -/
def runA (s : StateA) (evs : List EventA) : StateA :=
  evs.foldl stepA s

/-- Number of hard resets scheduled or in flight in a tsx coordinator state:
the pending backoff timer plus the executing reset body. -/
def flightCountA (s : StateA) : Nat :=
  (if s.timerPending = true then 1 else 0) + (if s.executing = true then 1 else 0)

/-- Recovery-coordinator state of the part002 revision: reconnectRef with the
attempt counter, the backoff timer slot and the grace timer slot, the
resetInFlight single-flight flag, the executing window of the backoff timer
callback, and voicePausedRef. -/
structure StateB where
  attempts : Nat
  timerPending : Bool
  graceTimerPending : Bool
  resetInFlight : Bool
  executing : Bool
  voicePaused : Bool
  deriving DecidableEq

/-- Grace-window duration armed by the STREAM_DISCONNECTED handler of the
part002 revision (src/unnamed/part_002 line 652). -/
def GRACE_DISCONNECT_MS : Nat := 4000

/-- Synchronous prefix of hardResetWithBackoff in the part002 revision
(src/unnamed/part_002 lines 563-574): a no-op when resetInFlight is set or a
backoff timer is already pending; otherwise it sets resetInFlight, schedules
the backoff timer and increments the attempt counter. -/
def requestB (s : StateB) : StateB :=
  if s.resetInFlight = true || s.timerPending = true then s
  else { s with resetInFlight := true, timerPending := true, attempts := s.attempts + 1 }

/-- cancelPendingHardReset of the part002 revision (src/unnamed/part_002
lines 526-537): clears the backoff timer and the grace timer and zeroes the
attempt counter. It does not touch resetInFlight. -/
def cancelPendingHardResetB (s : StateB) : StateB :=
  { s with timerPending := false, graceTimerPending := false, attempts := 0 }

/-- Events of the part002 coordinator: a hard-reset request, the backoff
timer firing, the reset body finishing (successfully or by throwing), the
STREAM_READY event, the video element's playing event, the
STREAM_DISCONNECTED event, and the grace timer firing. -/
inductive EventB
  | request
  | timerFire
  | completeOk
  | completeFail
  | streamReady
  | videoPlaying
  | disconnect
  | graceFire
  deriving DecidableEq

/-- One event-loop step of the part002 coordinator. timerFire clears the
timer slot and enters the reset body. completeOk zeroes the attempt counter;
the finally block clears resetInFlight. completeFail is the catch block,
which calls hardResetWithBackoff again - a no-op because resetInFlight is
still set - after which the finally block clears resetInFlight, so the retry
is lost. streamReady is the STREAM_READY handler: cancelPendingHardReset then
maybeResumeVoice, whose voice effect is conditional on session health, which
lies outside this state. videoPlaying is the onplaying handler, which calls
cancelPendingHardReset. disconnect is the STREAM_DISCONNECTED handler: it
pauses the voice pump and arms the 4000 ms grace timer when none is pending;
it schedules no reset. graceFire is the grace timer callback, which clears
the grace slot and calls hardResetWithBackoff. -/
def stepB (s : StateB) : EventB → StateB
  | EventB.request => requestB s
  | EventB.timerFire =>
      if s.timerPending = true then { s with timerPending := false, executing := true } else s
  | EventB.completeOk =>
      if s.executing = true then
        { s with executing := false, resetInFlight := false, attempts := 0 }
      else s
  | EventB.completeFail =>
      if s.executing = true then
        { requestB s with executing := false, resetInFlight := false }
      else s
  | EventB.streamReady => cancelPendingHardResetB s
  | EventB.videoPlaying => cancelPendingHardResetB s
  | EventB.disconnect =>
      if s.graceTimerPending = true then { s with voicePaused := true }
      else { s with voicePaused := true, graceTimerPending := true }
  | EventB.graceFire =>
      if s.graceTimerPending = true then requestB { s with graceTimerPending := false } else s

/-- Initial supervisor state of the part002 revision. -/
def initB : StateB :=
  { attempts := 0, timerPending := false, graceTimerPending := false,
    resetInFlight := false, executing := false, voicePaused := false }

/-- Event-loop execution of the part002 coordinator over a list of events. -/
def runB (s : StateB) (evs : List EventB) : StateB :=
  evs.foldl stepB s

/-- Number of hard resets scheduled or in flight in a part002 coordinator
state: the pending backoff timer plus the executing reset body. -/
def flightCount (s : StateB) : Nat :=
  (if s.timerPending = true then 1 else 0) + (if s.executing = true then 1 else 0)

/-- Single-flight invariant of the part002 coordinator: a pending backoff
timer or an executing reset body implies resetInFlight, and the two windows
never overlap. -/
def invB (s : StateB) : Bool :=
  (!s.timerPending || s.resetInFlight) &&
    ((!s.executing || s.resetInFlight) && !(s.timerPending && s.executing))

/-- Stuck configuration of the part002 coordinator: resetInFlight is set
although no backoff timer is pending and no reset body is executing, so no
event can ever clear the flag again. -/
def stuckB (s : StateB) : Bool :=
  s.resetInFlight && (!s.timerPending && !s.executing)

/-- Recovery actions requested by the health watchers. -/
inductive RecoveryAction
  | softRestart
  | voiceRestart
  | hardReset
  deriving DecidableEq

/-- State carried by the freeze watchdog of the part000 and part002doc4
revisions across interval ticks: the previous playback-position sample and
the consecutive-freeze counter. -/
structure WatchdogState where
  previousTime : Nat
  freezeCount : Nat
  deriving DecidableEq

/-- Sampling interval of the freeze watchdog (setInterval 10000). -/
def WATCHDOG_INTERVAL_MS : Nat := 10000

/-- Consecutive soft-restart limit of the freeze watchdog (SOFT_LIMIT 3). -/
def SOFT_LIMIT : Nat := 3

/-- One tick of the freeze watchdog of the part000 revision (src/unnamed/
part_000 lines 226-263) and the identical part002doc4 watchdog (src/unnamed/
part_002 lines 1116-1150). The tick is a no-op when the video element is
absent or the session is not Connected (the connected flag covers both
guards). On an unchanged playback position the watchdog attempts a soft
restart: if it returns normally the freeze counter is incremented and a hard
reset is requested once it reaches SOFT_LIMIT (the counter is then zeroed);
if it throws, the catch block requests a hard reset at once and zeroes the
counter. On an advanced position the counter is cleared. The previous sample
is updated at the end of every non-skipped tick. -/
def watchdogTick (s : WatchdogState) (connected : Bool) (currentTime : Nat)
    (softRestartOk : Bool) : WatchdogState × List RecoveryAction :=
  if connected = false then (s, [])
  else if currentTime = s.previousTime then
    if softRestartOk = true then
      if SOFT_LIMIT ≤ s.freezeCount + 1 then
        ({ previousTime := currentTime, freezeCount := 0 },
          [RecoveryAction.softRestart, RecoveryAction.hardReset])
      else
        ({ previousTime := currentTime, freezeCount := s.freezeCount + 1 },
          [RecoveryAction.softRestart])
    else
      ({ previousTime := currentTime, freezeCount := 0 },
        [RecoveryAction.softRestart, RecoveryAction.hardReset])
  else
    ({ previousTime := currentTime,
       freezeCount := if 0 < s.freezeCount then 0 else s.freezeCount }, [])

/-- State of the socket-error watcher of the part002doc4 revision: the
webSocketErrors counter and lastWebSocketErrorRef, the timestamp of the last
counted error. -/
structure WsErrorState where
  count : Nat
  lastErrorAt : Nat
  deriving DecidableEq

/-- Debounce window of the socket-error watcher: an error closer than this to
the previously counted one is not counted. -/
def WS_ERROR_DEBOUNCE_MS : Nat := 5000

/-- Counter update of the console.error monitor of the part002doc4 revision
(src/unnamed/part_002 lines 1012-1047) on one intercepted call. isWsError
tells whether the joined message matches a WebSocket CLOSING/CLOSED pattern.
At a counted error the counter becomes prev + 1; at exactly 3 the watcher
requests a voice-chat restart (restartVoiceChat clears the counter when it
succeeds, which is folded into this step; the follow-up soft restart is
guarded by newCount > 5, unreachable when newCount is 3); above 10 it
requests a hard reset and returns a zero counter. -/
def wsErrorStep (s : WsErrorState) (now : Nat) (isWsError : Bool)
    (voiceRestartSucceeds : Bool) : WsErrorState × List RecoveryAction :=
  if isWsError = false then (s, [])
  else if WS_ERROR_DEBOUNCE_MS < now - s.lastErrorAt then
    if s.count + 1 = 3 then
      if voiceRestartSucceeds = true then
        ({ count := 0, lastErrorAt := now }, [RecoveryAction.voiceRestart])
      else if 5 < s.count + 1 then
        ({ count := s.count + 1, lastErrorAt := now },
          [RecoveryAction.voiceRestart, RecoveryAction.softRestart])
      else
        ({ count := s.count + 1, lastErrorAt := now }, [RecoveryAction.voiceRestart])
    else if 10 < s.count + 1 then
      ({ count := 0, lastErrorAt := now }, [RecoveryAction.hardReset])
    else
      ({ count := s.count + 1, lastErrorAt := now }, [])
  else (s, [])

/-- WebSocket-error pattern test of the console.error monitor: the joined
message contains "WebSocket is already in CLOSING" or "WebSocket is already
in CLOSED". Containment is expressed through splitOn. -/
def isWsErrorMessage (msg : String) : Bool :=
  1 < (msg.splitOn ("WebSocket is already in CLOSING")).length ||
  1 < (msg.splitOn ("WebSocket is already in CLOSED")).length

/-- Replacement installed over console.error by the part002doc4 monitor
(src/unnamed/part_002 lines 1012-1051): joins the arguments with spaces,
runs the error-counting step when the message matches, and unconditionally
forwards the identical argument list to the original console.error - the
third component of the result. -/
def patchedConsoleError (s : WsErrorState) (now : Nat) (args : List String)
    (voiceRestartSucceeds : Bool) : WsErrorState × List RecoveryAction × List String :=
  let msg := String.intercalate " " args
  let r := wsErrorStep s now (isWsErrorMessage msg) voiceRestartSucceeds
  (r.1, r.2, args)

/-- Value installed as console.error: either the browser original or the
monitor's replacement wrapping the implementation it saved at mount. -/
inductive ConsoleErrorImpl
  | original
  | monitorPatched (saved : ConsoleErrorImpl)
  deriving DecidableEq

/-- Mount of the console.error monitor effect: saves the current
console.error in originalError and installs the replacement over it. -/
def installErrorMonitor (current : ConsoleErrorImpl) : ConsoleErrorImpl :=
  ConsoleErrorImpl.monitorPatched current

/-- Cleanup of the console.error monitor effect: assigns the saved
originalError back to console.error. -/
def uninstallErrorMonitor : ConsoleErrorImpl → ConsoleErrorImpl
  | ConsoleErrorImpl.monitorPatched saved => saved
  | ConsoleErrorImpl.original => ConsoleErrorImpl.original

/-- HTTP response observed by fetchAccessToken: status code and body text. -/
structure HttpResponse where
  status : Nat
  body : String
  deriving DecidableEq

/-- Semantics of response.ok: the status lies in the 2xx success range
[200, 300). -/
def HttpResponse.respOk (r : HttpResponse) : Bool :=
  decide (200 ≤ r.status ∧ r.status < 300)

/-- Outcome of the underlying fetch call: a settled HTTP response, or a
transport failure that rejects the fetch promise. -/
inductive FetchOutcome
  | success (response : HttpResponse)
  | networkFailure
  deriving DecidableEq

/-- fetchAccessToken of the tsx revision (src/components/InteractiveAvatar.tsx
lines 68-78): returns response.text() with no status check, so any settled
response yields its body as the token; only a transport failure is rethrown. -/
def fetchAccessTokenTsx : FetchOutcome → Except String String
  | FetchOutcome.success r => Except.ok r.body
  | FetchOutcome.networkFailure => Except.error ("Error fetching access token")

/-- fetchAccessToken of the part002doc1 revision (src/unnamed/part_002 lines
73-79): throws when response.ok is false, otherwise returns the body; a
transport failure also rejects. -/
def fetchAccessTokenPart002 : FetchOutcome → Except String String
  | FetchOutcome.success r =>
      if r.respOk = true then Except.ok r.body
      else Except.error ("Failed to fetch access token")
  | FetchOutcome.networkFailure => Except.error ("Failed to fetch access token")

/-- Success test on a token-fetch result. -/
def tokenFetchSucceeds : Except String String → Bool
  | Except.ok _ => true
  | Except.error _ => false

/- ------------------------------------------------------------------ -/
/- Helper lemmas                                                      -/
/- ------------------------------------------------------------------ -/

theorem invB_step (s : StateB) (e : EventB) (h : invB s = true) : invB (stepB s e) = true := by
  rcases s with ⟨a, tp, gp, rif, ex, vp⟩
  cases e <;> cases tp <;> cases gp <;> cases rif <;> cases ex <;>
    simp_all [invB, stepB, requestB, cancelPendingHardResetB]

theorem invB_run (evs : List EventB) (s : StateB) (h : invB s = true) :
    invB (runB s evs) = true := by
  induction evs generalizing s with
  | nil => simpa [runB] using h
  | cons e t ih =>
      have hstep := invB_step s e h
      simpa [runB] using ih (stepB s e) hstep

theorem stuckB_step (s : StateB) (e : EventB) (h : stuckB s = true) :
    stuckB (stepB s e) = true := by
  rcases s with ⟨a, tp, gp, rif, ex, vp⟩
  cases e <;> cases tp <;> cases gp <;> cases rif <;> cases ex <;>
    simp_all [stuckB, stepB, requestB, cancelPendingHardResetB]

theorem stuckB_run (evs : List EventB) (s : StateB) (h : stuckB s = true) :
    stuckB (runB s evs) = true := by
  induction evs generalizing s with
  | nil => simpa [runB] using h
  | cons e t ih =>
      have hstep := stuckB_step s e h
      simpa [runB] using ih (stepB s e) hstep

/- ------------------------------------------------------------------ -/
/- Claim theorems                                                     -/
/- ------------------------------------------------------------------ -/

/-- C1 counterexample: in the tsx revision the hardResetWithBackoff guard
checks only the pending timer slot. After the backoff timer fires the slot is
cleared while the reset body executes, so a hard-reset request arriving in
that window is not a no-op: it schedules a second reset, and two hard resets
are then scheduled or in flight at the same instant. -/
theorem hardReset_double_schedule_cex :
    (runA initA [EventA.request, EventA.timerFire]).executing = true ∧
    (runA initA [EventA.request, EventA.timerFire]).timerPending = false ∧
    stepA (runA initA [EventA.request, EventA.timerFire]) EventA.request ≠
      runA initA [EventA.request, EventA.timerFire] ∧
    flightCountA (runA initA [EventA.request, EventA.timerFire, EventA.request]) = 2 := by
  decide

/-- C1 (amended): in the part002 revision, whose hardResetWithBackoff is
additionally guarded by resetInFlight, at most one hard reset is scheduled or
in flight after any event sequence, and a request made while the backoff
timer is pending or the reset body is executing is a no-op; in the tsx
revision the no-op guarantee holds while the timer is pending. -/
theorem hardReset_single_flight_refined (evs : List EventB) (sA : StateA)
    (hA : sA.timerPending = true) :
    stepA sA EventA.request = sA ∧
    flightCount (runB initB evs) ≤ 1 ∧
    ((runB initB evs).timerPending = true →
      stepB (runB initB evs) EventB.request = runB initB evs) ∧
    ((runB initB evs).executing = true →
      stepB (runB initB evs) EventB.request = runB initB evs) := by
  have hinv : invB (runB initB evs) = true := invB_run evs initB (by decide)
  constructor
  · rcases sA with ⟨a, tp, ex⟩
    cases tp
    · simp [StateA.timerPending] at hA
    · simp [stepA, requestA]
  · revert hinv
    generalize runB initB evs = s
    rcases s with ⟨a, tp, gp, rif, ex, vp⟩
    intro hinv
    cases tp <;> cases rif <;> cases ex <;>
      simp_all [invB, stepB, requestB, flightCount]

/-- C1 witness: concrete instance of the single-flight theorem at the event
trace consisting of one request, where the backoff timer is pending. -/
theorem hardReset_single_flight_refined_witness :
    stepA { attempts := 0, timerPending := true, executing := false } EventA.request =
      { attempts := 0, timerPending := true, executing := false } ∧
    flightCount (runB initB [EventB.request]) ≤ 1 ∧
    stepB (runB initB [EventB.request]) EventB.request = runB initB [EventB.request] :=
  ⟨(hardReset_single_flight_refined [EventB.request]
      { attempts := 0, timerPending := true, executing := false } rfl).1,
   (hardReset_single_flight_refined [EventB.request]
      { attempts := 0, timerPending := true, executing := false } rfl).2.1,
   (hardReset_single_flight_refined [EventB.request]
      { attempts := 0, timerPending := true, executing := false } rfl).2.2.1 (by decide)⟩

/-- C2 counterexample: the part002 hardResetWithBackoff draws its jitter from
[0, 500), so a reset scheduled at attempt 0 can have delay 1400 ms, outside
the claimed [1000, 1300) range. -/
theorem backoff_attempt0_delay_cex :
    400 < JITTER_BOUND_PART002 ∧
    hardResetDelayPart002 0 400 = 1400 ∧
    ¬ hardResetDelayPart002 0 400 < 1300 := by
  decide

/-- C2 (amended): every scheduling computes delay = min(ceiling,
1000 * 2 ^ attempt) + jitter and increments the attempt counter by one; the
jitter-free delay is monotonically non-decreasing in the attempt counter up
to the ceiling; a reset scheduled at attempt 0 has delay in [1000, 1300) ms
in the tsx revision (ceiling 15000, jitter below 300) and in [1000, 1500) ms
in the part002 revision (ceiling 20000, jitter below 500), leaving the
attempt counter at 1 in both. -/
theorem backoff_policy_delays (attempt jitter jitter2 : Nat)
    (hj : jitter < JITTER_BOUND_TSX) (hj2 : jitter2 < JITTER_BOUND_PART002) :
    1000 ≤ hardResetDelayTsx 0 jitter ∧ hardResetDelayTsx 0 jitter < 1300 ∧
    1000 ≤ hardResetDelayPart002 0 jitter2 ∧ hardResetDelayPart002 0 jitter2 < 1500 ∧
    hardResetDelayTsx attempt 0 ≤ hardResetDelayTsx (attempt + 1) 0 ∧
    hardResetDelayPart002 attempt 0 ≤ hardResetDelayPart002 (attempt + 1) 0 ∧
    (stepA { attempts := attempt, timerPending := false, executing := false }
        EventA.request).attempts = attempt + 1 ∧
    (requestB { initB with attempts := attempt }).attempts = attempt + 1 := by
  have hbase : ∀ c : Nat, 1000 ≤ c → min c (1000 * 2 ^ 0) = 1000 := by
    intro c hc
    simp [Nat.min_eq_right, hc]
  have hmono : ∀ (c a : Nat), min c (1000 * 2 ^ a) ≤ min c (1000 * 2 ^ (a + 1)) := by
    intro c a
    exact min_le_min (le_refl c)
      (Nat.mul_le_mul_left 1000 (Nat.pow_le_pow_right (by norm_num) (Nat.le_succ a)))
  simp only [JITTER_BOUND_TSX] at hj
  simp only [JITTER_BOUND_PART002] at hj2
  refine ⟨?_, ?_, ?_, ?_, ?_, ?_, ?_, ?_⟩
  · simp only [hardResetDelayTsx, hbase 15000 (by norm_num)]
    omega
  · simp only [hardResetDelayTsx, hbase 15000 (by norm_num)]
    omega
  · simp only [hardResetDelayPart002, hbase 20000 (by norm_num)]
    omega
  · simp only [hardResetDelayPart002, hbase 20000 (by norm_num)]
    omega
  · simpa [hardResetDelayTsx] using hmono 15000 attempt
  · simpa [hardResetDelayPart002] using hmono 20000 attempt
  · simp [stepA, requestA]
  · simp [requestB, initB]

/-- C2 witness: concrete instance of the backoff-policy theorem at attempt 0
with zero jitter. -/
theorem backoff_policy_delays_witness :
    1000 ≤ hardResetDelayTsx 0 0 ∧ hardResetDelayTsx 0 0 < 1300 ∧
    1000 ≤ hardResetDelayPart002 0 0 ∧ hardResetDelayPart002 0 0 < 1500 ∧
    hardResetDelayTsx 0 0 ≤ hardResetDelayTsx 1 0 ∧
    hardResetDelayPart002 0 0 ≤ hardResetDelayPart002 1 0 ∧
    (stepA { attempts := 0, timerPending := false, executing := false }
        EventA.request).attempts = 1 ∧
    (requestB { initB with attempts := 0 }).attempts = 1 :=
  backoff_policy_delays 0 0 0 (by decide) (by decide)

/-- C3: in the part002 revision a health confirmation - the STREAM_READY
event or the video element actually playing - cancels both the backoff timer
and the grace timer and zeroes the attempt counter, and the canceled timers
never fire: a timer-fire or grace-fire event in the resulting state is a
no-op, so no hard reset armed by the earlier disruption ever begins. -/
theorem health_confirmation_cancels_timers (s : StateB) :
    (stepB s EventB.streamReady).timerPending = false ∧
    (stepB s EventB.streamReady).graceTimerPending = false ∧
    (stepB s EventB.streamReady).attempts = 0 ∧
    stepB (stepB s EventB.streamReady) EventB.timerFire = stepB s EventB.streamReady ∧
    stepB (stepB s EventB.streamReady) EventB.graceFire = stepB s EventB.streamReady ∧
    (stepB s EventB.videoPlaying).timerPending = false ∧
    (stepB s EventB.videoPlaying).graceTimerPending = false ∧
    (stepB s EventB.videoPlaying).attempts = 0 ∧
    stepB (stepB s EventB.videoPlaying) EventB.timerFire = stepB s EventB.videoPlaying ∧
    stepB (stepB s EventB.videoPlaying) EventB.graceFire = stepB s EventB.videoPlaying := by
  rcases s with ⟨a, tp, gp, rif, ex, vp⟩
  simp [stepB, cancelPendingHardResetB]

/-- C4 counterexample: in the tsx revision the STREAM_DISCONNECTED handler
calls hardResetWithBackoff directly, so a disconnect signal arriving in the
idle state immediately schedules a hard reset (backoff timer pending, attempt
counter incremented), with no grace window. -/
theorem disconnect_immediate_reset_cex :
    (stepA initA EventA.disconnect).timerPending = true ∧
    (stepA initA EventA.disconnect).attempts = 1 := by
  decide

/-- C4 (amended): in the part002 revision a stream-disconnected signal never
immediately schedules a hard reset: it pauses the voice pump and arms the
4000 ms grace timer (when none is pending), leaving the backoff timer, the
executing window, resetInFlight and the attempt counter unchanged; if the
grace timer then fires with no intervening health confirmation, exactly one
hard reset is scheduled, and an intervening STREAM_READY cancels the grace
timer so that no reset is scheduled. In the tsx revision the disconnect
handler schedules the backoff hard reset immediately. -/
theorem disconnect_grace_window_policy (s : StateB) :
    GRACE_DISCONNECT_MS = 4000 ∧
    (stepB s EventB.disconnect).timerPending = s.timerPending ∧
    (stepB s EventB.disconnect).executing = s.executing ∧
    (stepB s EventB.disconnect).resetInFlight = s.resetInFlight ∧
    (stepB s EventB.disconnect).attempts = s.attempts ∧
    (stepB s EventB.disconnect).graceTimerPending = true ∧
    (runB initB [EventB.disconnect]).timerPending = false ∧
    runB initB [EventB.disconnect, EventB.graceFire] =
      { attempts := 1, timerPending := true, graceTimerPending := false,
        resetInFlight := true, executing := false, voicePaused := true } ∧
    flightCount (runB initB [EventB.disconnect, EventB.graceFire]) = 1 ∧
    (runB initB [EventB.disconnect, EventB.streamReady, EventB.graceFire]).timerPending
      = false ∧
    flightCount (runB initB [EventB.disconnect, EventB.streamReady, EventB.graceFire]) = 0 := by
  rcases s with ⟨a, tp, gp, rif, ex, vp⟩
  refine ⟨rfl, ?_, ?_, ?_, ?_, ?_, by decide, by decide, by decide, by decide, by decide⟩ <;>
    cases gp <;> simp [stepB]

/-- C5 counterexample: the silent periodic recycle of the part002doc1
revision starts the session with activityIdleTimeout 3200, not the fixed
maximum 3600, and the part000 hardReset passes the caller-supplied
idle-timeout through unchanged (7200 here), so not every session-starting
operation clamps the idle timeout to 3600. -/
theorem idle_timeout_not_uniform_cex :
    (recycleConfigPart002 DEFAULT_CONFIG).activityIdleTimeout = some 3200 ∧
    some 3200 ≠ (some 3600 : Option Nat) ∧
    (hardResetConfigPart000
        { DEFAULT_CONFIG_part000 with activityIdleTimeout := some 7200 }).activityIdleTimeout
      = some 7200 := by
  decide

/-- C5 (amended): the initial start and the hard-reset rebuild of the tsx,
part001, part002doc1 and part002 revisions pass activityIdleTimeout 3600
regardless of the caller configuration, leaving the other fields untouched,
and the part001 periodic recycle does the same; the part002doc1 periodic
recycle passes 3200; the part000 hardReset passes the caller configuration
unchanged (its own DEFAULT_CONFIG carries 3600). -/
theorem idle_timeout_per_operation (cfg : StartAvatarRequestM) :
    (extendedConfig cfg).activityIdleTimeout = some 3600 ∧
    (extendedConfig cfg).quality = cfg.quality ∧
    (extendedConfig cfg).language = cfg.language ∧
    (recycleConfigPart001 cfg).activityIdleTimeout = some 3600 ∧
    (recycleConfigPart002 cfg).activityIdleTimeout = some 3200 ∧
    hardResetConfigPart000 cfg = cfg ∧
    DEFAULT_CONFIG_part000.activityIdleTimeout = some 3600 := by
  rcases cfg with ⟨q, l, idle⟩
  simp [extendedConfig, recycleConfigPart001, recycleConfigPart002,
    hardResetConfigPart000, DEFAULT_CONFIG_part000]

/-- C6 counterexample: on the very first unchanged playback sample (freeze
counter 0, well below the threshold 3), when the soft-restart attempt throws,
the watchdog's catch block requests a hard reset immediately - so a hard
reset is not requested only after 3 consecutive unchanged samples, and the
freeze counter is not incremented on that sample. -/
theorem freeze_watchdog_early_hard_reset_cex :
    0 + 1 < SOFT_LIMIT ∧
    watchdogTick { previousTime := 0, freezeCount := 0 } true 0 false =
      ({ previousTime := 0, freezeCount := 0 },
        [RecoveryAction.softRestart, RecoveryAction.hardReset]) := by
  decide

/-- C6 (amended): while Connected the watchdog samples every 10 s; on every
unchanged sample it attempts one soft restart; when the soft restart returns
normally it increments the freeze counter and requests a hard reset exactly
when the counter reaches the threshold 3, zeroing it; when the soft restart
throws it requests a hard reset immediately and zeroes the counter; the
counter resets to zero on the first advanced sample; ticks outside Connected
are no-ops. -/
theorem freeze_watchdog_policy (s : WatchdogState) (t : Nat) :
    WATCHDOG_INTERVAL_MS = 10000 ∧
    SOFT_LIMIT = 3 ∧
    (s.freezeCount + 1 < SOFT_LIMIT →
      watchdogTick s true s.previousTime true =
        ({ previousTime := s.previousTime, freezeCount := s.freezeCount + 1 },
          [RecoveryAction.softRestart])) ∧
    (SOFT_LIMIT ≤ s.freezeCount + 1 →
      watchdogTick s true s.previousTime true =
        ({ previousTime := s.previousTime, freezeCount := 0 },
          [RecoveryAction.softRestart, RecoveryAction.hardReset])) ∧
    (watchdogTick s true s.previousTime false =
      ({ previousTime := s.previousTime, freezeCount := 0 },
        [RecoveryAction.softRestart, RecoveryAction.hardReset])) ∧
    (t ≠ s.previousTime →
      watchdogTick s true t true = ({ previousTime := t, freezeCount := 0 }, [])) ∧
    watchdogTick s false t true = (s, []) := by
  rcases s with ⟨p, fc⟩
  refine ⟨rfl, rfl, ?_, ?_, ?_, ?_, ?_⟩
  · intro h
    have hle : ¬ SOFT_LIMIT ≤ fc + 1 := by
      simp only [SOFT_LIMIT] at h ⊢
      omega
    simp [watchdogTick, hle]
  · intro h
    simp [watchdogTick, h]
  · simp [watchdogTick]
  · intro h
    simp only [watchdogTick, if_neg h]
    simp
  · simp [watchdogTick]

/-- C6 witness: concrete instances of the watchdog-policy theorem - a first
unchanged sample increments the counter to 1 with one soft restart, a third
consecutive unchanged sample requests the hard reset and zeroes the counter,
and an advanced sample clears the counter. -/
theorem freeze_watchdog_policy_witness :
    watchdogTick { previousTime := 5, freezeCount := 0 } true 5 true =
      ({ previousTime := 5, freezeCount := 1 }, [RecoveryAction.softRestart]) ∧
    watchdogTick { previousTime := 5, freezeCount := 2 } true 5 true =
      ({ previousTime := 5, freezeCount := 0 },
        [RecoveryAction.softRestart, RecoveryAction.hardReset]) ∧
    watchdogTick { previousTime := 5, freezeCount := 1 } true 9 true =
      ({ previousTime := 9, freezeCount := 0 }, []) :=
  ⟨(freeze_watchdog_policy { previousTime := 5, freezeCount := 0 } 9).2.2.1 (by decide),
   (freeze_watchdog_policy { previousTime := 5, freezeCount := 2 } 9).2.2.2.1 (by decide),
   (freeze_watchdog_policy { previousTime := 5, freezeCount := 1 } 9).2.2.2.2.2.1 (by decide)⟩

/-- C7 counterexample: when the socket-error counter reaches 10 (the tenth
counted error of the window), the monitor requests nothing - the hard reset
is guarded by newCount > 10, so it is requested only on the eleventh counted
error. -/
theorem socket_error_threshold_cex :
    wsErrorStep { count := 9, lastErrorAt := 0 } 6000 true false =
      ({ count := 10, lastErrorAt := 6000 }, []) := by
  decide

/-- C7 (amended): at the third counted error of the window exactly one
voice-only restart is requested (and when that restart succeeds the counter
is cleared); the hard reset is requested when the counter exceeds 10, that
is, on the eleventh counted error of the same unresolved window, and the
counter is then reset to zero; an error arriving within the 5 s debounce of
the previous counted error is not counted. -/
theorem socket_error_thresholds (last now : Nat)
    (h : WS_ERROR_DEBOUNCE_MS < now - last) :
    wsErrorStep { count := 2, lastErrorAt := last } now true false =
      ({ count := 3, lastErrorAt := now }, [RecoveryAction.voiceRestart]) ∧
    wsErrorStep { count := 2, lastErrorAt := last } now true true =
      ({ count := 0, lastErrorAt := now }, [RecoveryAction.voiceRestart]) ∧
    wsErrorStep { count := 9, lastErrorAt := last } now true false =
      ({ count := 10, lastErrorAt := now }, []) ∧
    wsErrorStep { count := 10, lastErrorAt := last } now true false =
      ({ count := 0, lastErrorAt := now }, [RecoveryAction.hardReset]) ∧
    (¬ WS_ERROR_DEBOUNCE_MS < now - last →
      wsErrorStep { count := 2, lastErrorAt := last } now true false =
        ({ count := 2, lastErrorAt := last }, [])) := by
  refine ⟨?_, ?_, ?_, ?_, ?_⟩
  · simp [wsErrorStep, h]
  · simp [wsErrorStep, h]
  · simp [wsErrorStep, h]
  · simp [wsErrorStep, h]
  · intro hn
    exact absurd h hn

/-- C7 witness: concrete instance of the threshold theorem with the previous
counted error at time 0 and the next at 6000 ms. -/
theorem socket_error_thresholds_witness :
    wsErrorStep { count := 2, lastErrorAt := 0 } 6000 true false =
      ({ count := 3, lastErrorAt := 6000 }, [RecoveryAction.voiceRestart]) ∧
    wsErrorStep { count := 10, lastErrorAt := 0 } 6000 true false =
      ({ count := 0, lastErrorAt := 6000 }, [RecoveryAction.hardReset]) :=
  ⟨(socket_error_thresholds 0 6000 (by decide)).1,
   (socket_error_thresholds 0 6000 (by decide)).2.2.2.1⟩

/-- C8: the claim is right and the code is wrong. After a hard reset is
requested (resetInFlight set, backoff timer scheduled) and a STREAM_READY
arrives before the timer fires, cancelPendingHardReset clears the timer but
not resetInFlight. The resulting state has resetInFlight set with no pending
timer and no executing body; a further hard-reset request is a no-op, and
resetInFlight remains set after every possible continuation of the event
loop, permanently blocking all subsequent hard resets. -/
theorem resetInFlight_leak_on_cancel (evs : List EventB) :
    (runB initB [EventB.request, EventB.streamReady]).resetInFlight = true ∧
    (runB initB [EventB.request, EventB.streamReady]).timerPending = false ∧
    (runB initB [EventB.request, EventB.streamReady]).executing = false ∧
    stepB (runB initB [EventB.request, EventB.streamReady]) EventB.request =
      runB initB [EventB.request, EventB.streamReady] ∧
    (runB (runB initB [EventB.request, EventB.streamReady]) evs).resetInFlight = true := by
  refine ⟨by decide, by decide, by decide, by decide, ?_⟩
  have h : stuckB (runB (runB initB [EventB.request, EventB.streamReady]) evs) = true :=
    stuckB_run evs (runB initB [EventB.request, EventB.streamReady]) (by decide)
  revert h
  generalize runB (runB initB [EventB.request, EventB.streamReady]) evs = t
  rcases t with ⟨a, tp, gp, rif, ex, vp⟩
  cases rif <;> simp [stuckB]

/-- C9 counterexample: the tsx fetchAccessToken performs no status check, so
a settled HTTP 500 response is not a failure - its body is returned as the
credential - although 500 is not a success status. -/
theorem token_fetch_ignores_status_cex :
    fetchAccessTokenTsx (FetchOutcome.success { status := 500, body := "server error body" })
      = Except.ok ("server error body") ∧
    HttpResponse.respOk { status := 500, body := "server error body" } = false :=
  ⟨rfl, by decide⟩

/-- C9 (amended): the part002doc1 fetchAccessToken succeeds with the response
body exactly when the HTTP status is a 2xx success status, and fails on every
non-success status as well as on transport failure; the tsx fetchAccessToken
returns the body for any settled HTTP status and fails only on transport
failure. -/
theorem token_fetch_status_handling (r : HttpResponse) :
    tokenFetchSucceeds (fetchAccessTokenPart002 (FetchOutcome.success r)) = r.respOk ∧
    (fetchAccessTokenPart002 (FetchOutcome.success r) =
      if r.respOk = true then Except.ok r.body
      else Except.error ("Failed to fetch access token")) ∧
    fetchAccessTokenPart002 FetchOutcome.networkFailure =
      Except.error ("Failed to fetch access token") ∧
    fetchAccessTokenTsx (FetchOutcome.success r) = Except.ok r.body ∧
    fetchAccessTokenTsx FetchOutcome.networkFailure =
      Except.error ("Error fetching access token") := by
  refine ⟨?_, rfl, rfl, rfl, rfl⟩
  by_cases hok : r.respOk = true
  · simp [fetchAccessTokenPart002, tokenFetchSucceeds, hok]
  · simp only [Bool.not_eq_true] at hok
    simp [fetchAccessTokenPart002, tokenFetchSucceeds, hok]

/-- C10: every call intercepted by the console.error replacement of the
part002doc4 monitor is forwarded to the original console.error with the
identical argument list, whatever the monitor state, the time and the
voice-restart outcome, so no error output is suppressed; and the effect's
cleanup restores exactly the console.error implementation that was saved at
mount. -/
theorem console_error_forward_and_restore :
    (∀ (s : WsErrorState) (now : Nat) (args : List String) (succ : Bool),
      (patchedConsoleError s now args succ).2.2 = args) ∧
    (∀ c : ConsoleErrorImpl, uninstallErrorMonitor (installErrorMonitor c) = c) := by
  constructor
  · intro s now args succ
    rfl
  · intro c
    rfl
